import Mathlib

/-!
Verification development for the WasteWater-Treatment dashboard (`app.py`).

The program has three operations over a hardcoded pollutant table:
`recommend_treatment` (normalised dictionary lookup plus arithmetic scaling),
`explain_recommendation` (a single remote chat-completion call wrapped in
try/except), and `extract_pdf_text` (per-page text concatenation with a
2000-character truncation).  Python strings are modelled as Lean `String`
(operating on the underlying `List Char`), Python numbers as `ℚ`, and the
two external effects (the chat API and the PDF parser) as explicit function
parameters.
-/

namespace WasteWater

/-- Python `str.lower` on one character, restricted to ASCII letters
(the table keys and all strings the program compares are ASCII). -/
def pyLowerChar (c : Char) : Char :=
  if 65 ≤ c.toNat ∧ c.toNat ≤ 90 then Char.ofNat (c.toNat + 32) else c

/-- Python `str.upper` on one character (ASCII), used by `str.capitalize`. -/
def pyUpperChar (c : Char) : Char :=
  if 97 ≤ c.toNat ∧ c.toNat ≤ 122 then Char.ofNat (c.toNat - 32) else c

/-- The whitespace characters stripped by Python `str.strip()` (ASCII range). -/
def pyIsSpace (c : Char) : Bool :=
  c.toNat = 32 || c.toNat = 9 || c.toNat = 10 || c.toNat = 11 ||
  c.toNat = 12 || c.toNat = 13

/-- Remove leading whitespace from a character list. -/
def stripLeft (l : List Char) : List Char := l.dropWhile pyIsSpace

/-- Remove trailing whitespace from a character list. -/
def stripRight (l : List Char) : List Char := (l.reverse.dropWhile pyIsSpace).reverse

/-- Python `str.lower`. -/
def pyLower (s : String) : String := String.mk (s.data.map pyLowerChar)

/-- Python `str.strip()` (no argument: strips whitespace from both ends). -/
def pyStrip (s : String) : String := String.mk (stripRight (stripLeft s.data))

/-- The normalisation `pollutant.lower().strip()` performed by
`recommend_treatment` (line 42 of `app.py`). -/
def pyNormalize (s : String) : String := pyStrip (pyLower s)

/-- Python `str.capitalize()`: first character upper-cased, the rest lower-cased. -/
def pyCapitalize (s : String) : String :=
  match s.data with
  | [] => ""
  | c :: cs => String.mk (pyUpperChar c :: cs.map pyLowerChar)

/-- Python string slicing `s[:n]` (by code points). -/
def pyTake (n : ℕ) (s : String) : String := String.mk (s.data.take n)

/-- Python `round` to an integer: round half to even (banker's rounding). -/
def pyRoundInt (x : ℚ) : ℤ :=
  let f : ℤ := Rat.floor x
  if x - (f : ℚ) < 1/2 then f
  else if 1/2 < x - (f : ℚ) then f + 1
  else if f % 2 = 0 then f else f + 1

/-- Python `round(x, 2)`: round to two decimal places, half to even. -/
def pyRound2 (x : ℚ) : ℚ := (pyRoundInt (x * 100) : ℚ) / 100

/-- Display of the flow-rate number inside the f-strings of `app.py`
(gradio delivers the `gr.Number` field as a float; `str` of a whole
float prints a trailing `.0`). -/
def pyShowRat (q : ℚ) : String :=
  if q.den = 1 then toString q.num ++ ".0" else toString q

/-- Python `repr` of a list of ints, as interpolated by `{rec['efficiency']}`. -/
def pyShowNatList (l : List ℕ) : String :=
  "[" ++ String.intercalate ", " (l.map (fun n => toString n)) ++ "]"

/-- One value of the `treatment_db` dictionary (lines 14-36 of `app.py`):
parallel sequences of methods, removal efficiencies, unit costs and unit
sludge rates, plus a free-text description. -/
structure TreatmentRecord where
  methods : List String
  efficiency : List ℕ
  details : String
  cost_per_m3 : List ℚ
  sludge_kg_per_m3 : List ℚ
deriving DecidableEq

/-- The hardcoded pollutant table `treatment_db` of `app.py`. -/
def treatment_db : List (String × TreatmentRecord) :=
  [ ("lead",
     { methods := ["Chemical Precipitation", "Ion Exchange", "Membrane Filtration"],
       efficiency := [85, 90, 95],
       details := "Lead can be effectively treated using lime precipitation, ion-exchange resins, or RO membranes.",
       cost_per_m3 := [8/10, 15/10, 22/10],
       sludge_kg_per_m3 := [12/100, 5/100, 2/100] }),
    ("arsenic",
     { methods := ["Coagulation–Filtration", "Adsorption", "Reverse Osmosis"],
       efficiency := [80, 88, 96],
       details := "Arsenic removal requires multi-barrier approaches including iron-based adsorbents and RO systems.",
       cost_per_m3 := [9/10, 12/10, 25/10],
       sludge_kg_per_m3 := [15/100, 7/100, 3/100] }),
    ("chromium",
     { methods := ["Reduction + Precipitation", "Activated Carbon Adsorption", "Electrochemical Treatment"],
       efficiency := [82, 87, 93],
       details := "Chromium (VI) is reduced to Cr (III) before precipitation, or handled with advanced adsorption/EC.",
       cost_per_m3 := [10/10, 14/10, 20/10],
       sludge_kg_per_m3 := [18/100, 6/100, 4/100] }) ]

/-- The matplotlib figure built by `recommend_treatment` (lines 49-54):
a bar chart of efficiency by method, with y-label, title and y-limit. -/
structure EfficiencyChart where
  barLabels : List String
  barHeights : List ℕ
  ylabel : String
  title : String
  ymin : ℕ
  ymax : ℕ
deriving DecidableEq

/-- The chart constructed for pollutant `p` with record `rec`. -/
def efficiencyChart (p : String) (rec : TreatmentRecord) : EfficiencyChart :=
  { barLabels := rec.methods,
    barHeights := rec.efficiency,
    ylabel := "Removal Efficiency (%)",
    title := "Treatment methods for " ++ pyCapitalize p,
    ymin := 0,
    ymax := 100 }

/-- The pandas DataFrame built by `recommend_treatment` (lines 70-78).
Fields correspond to the columns "Method", "Efficiency (%)", "Cost ($/m³)",
"Daily Cost ($)", "Sludge (kg/m³)" and "Sludge (kg/day)". -/
structure CostSludgeTable where
  method : List String
  efficiencyPct : List ℕ
  costPerM3 : List ℚ
  dailyCost : List ℚ
  sludgePerM3 : List ℚ
  sludgePerDay : List ℚ
deriving DecidableEq

/-- The cost and sludge estimation table for record `rec` at the given flow rate:
the daily columns are the unit columns scaled by the flow rate and rounded
to two decimals (`round(c * flow_rate, 2)`). -/
def costSludgeTable (rec : TreatmentRecord) (flow_rate : ℚ) : CostSludgeTable :=
  { method := rec.methods,
    efficiencyPct := rec.efficiency,
    costPerM3 := rec.cost_per_m3,
    dailyCost := rec.cost_per_m3.map (fun c => pyRound2 (c * flow_rate)),
    sludgePerM3 := rec.sludge_kg_per_m3,
    sludgePerDay := rec.sludge_kg_per_m3.map (fun s => pyRound2 (s * flow_rate)) }

/-- The f-string returned on the unknown-pollutant path (line 44), with the
normalised pollutant interpolated. -/
def noDataMessage (p : String) : String :=
  "❌ No data for \x27" ++ p ++ "\x27. Try lead, arsenic, chromium."

/-- The HTML text summary built for a known pollutant (lines 57-67). -/
def summaryText (p : String) (rec : TreatmentRecord) (flow_rate : ℚ) : String :=
  "\n<div style=\"background:#f5f5f5; padding:15px; border-radius:10px; color:#2C3E50\">\n" ++
  "<h3>💧 Recommended Treatment for " ++ pyCapitalize p ++ "</h3>\n<ul>\n" ++
  "<li><b>Methods:</b> " ++ String.intercalate ", " rec.methods ++ "</li>\n" ++
  "<li><b>Efficiency (%):</b> " ++ pyShowNatList rec.efficiency ++ "</li>\n" ++
  "<li><b>Technical Note:</b> " ++ rec.details ++ "</li>\n" ++
  "<li><b>Flow Rate Consideration:</b> For " ++ pyShowRat flow_rate ++
  " m³/day, costs and sludge must be considered.</li>\n</ul>\n</div>\n"

/-- The triple returned by `recommend_treatment`: the text panel, the optional
plot and the optional dataframe. -/
structure RecommendResult where
  text : String
  chart : Option EfficiencyChart
  table : Option CostSludgeTable
deriving DecidableEq

/-- `recommend_treatment` (lines 41-80 of `app.py`): normalise the pollutant,
return the no-data message with no chart and no table when it is absent from
`treatment_db`, otherwise return the summary text, the efficiency chart and
the cost/sludge table. -/
def recommend_treatment (pollutant : String) (flow_rate : ℚ) : RecommendResult :=
  let p := pyNormalize pollutant
  match treatment_db.lookup p with
  | none => { text := noDataMessage p, chart := none, table := none }
  | some rec =>
      { text := summaryText p rec flow_rate,
        chart := some (efficiencyChart p rec),
        table := some (costSludgeTable rec flow_rate) }

/-- A chat message of the Groq request (`messages=[{"role": "user", ...}]`). -/
structure ChatMessage where
  role : String
  content : String
deriving DecidableEq

/-- The request sent by `groq_client.chat.completions.create` (lines 85-90). -/
structure ChatRequest where
  model : String
  messages : List ChatMessage
  temperature : ℚ
  max_tokens : ℕ
deriving DecidableEq

/-- One element of `response.choices`. -/
structure ChatChoice where
  message : ChatMessage
deriving DecidableEq

/-- The chat-completion response: a list of choices. -/
structure ChatResponse where
  choices : List ChatChoice
deriving DecidableEq

/-- The prompt interpolated into the single user message (line 87). -/
def chatPrompt (pollutant : String) (flow_rate : ℚ) : String :=
  "Explain in technical detail how to treat " ++ pollutant ++
  " in wastewater with flow rate " ++ pyShowRat flow_rate ++ " m³/day."

/-- The concrete request `explain_recommendation` issues. -/
def chatRequest (pollutant : String) (flow_rate : ℚ) : ChatRequest :=
  { model := "llama-3.1-8b-instant",
    messages := [{ role := "user", content := chatPrompt pollutant flow_rate }],
    temperature := 6/10,
    max_tokens := 500 }

/-- `explain_recommendation` (lines 83-93).  The remote endpoint is modelled
as a function from the request to either an exception text (`Except.error`)
or a response.  The `try` body also indexes `response.choices[0]`, whose
`IndexError` is caught by the same `except` clause. -/
def explain_recommendation (remote : ChatRequest → Except String ChatResponse)
    (pollutant : String) (flow_rate : ℚ) : String :=
  match remote (chatRequest pollutant flow_rate) with
  | Except.error e => "⚠️ AI explanation unavailable: " ++ e
  | Except.ok response =>
      match response.choices with
      | [] => "⚠️ AI explanation unavailable: list index out of range"
      | choice :: _ => choice.message.content

/-- The text assembled by the page loop of `extract_pdf_text` (lines 100-102):
start from the empty string and append `page.extract_text() or ""` for each
page in order (`none` models a page whose extraction returns `None`). -/
def pdfConcat (pages : List (Option String)) : String :=
  pages.foldl (fun text page => text ++ page.getD "") ""

/-- `extract_pdf_text` (lines 96-103).  The third-party parser is modelled as
a function from the file path to the per-page extraction results.  A missing
upload (`None`) or an empty path is falsy in Python (`if not pdf_file`) and
returns the placeholder; otherwise the concatenated text is truncated to
2000 characters and `"..."` is appended. -/
def extract_pdf_text (parsePdf : String → List (Option String))
    (pdf_file : Option String) : String :=
  match pdf_file with
  | none => "No file uploaded."
  | some path =>
      if path = "" then "No file uploaded."
      else pyTake 2000 (pdfConcat (parsePdf path)) ++ "..."

/-- The module-level mutable environment of `app.py`: the only global the
handlers can reach besides the clients is `treatment_db`. -/
structure AppState where
  treatment_db : List (String × TreatmentRecord)
deriving DecidableEq

/-- `recommend_treatment` as a state transformer over the module globals:
it reads `treatment_db` and contains no assignment to it. -/
def recommend_treatmentS (pollutant : String) (flow_rate : ℚ)
    (st : AppState) : RecommendResult × AppState :=
  let p := pyNormalize pollutant
  (match st.treatment_db.lookup p with
   | none => { text := noDataMessage p, chart := none, table := none }
   | some rec =>
      { text := summaryText p rec flow_rate,
        chart := some (efficiencyChart p rec),
        table := some (costSludgeTable rec flow_rate) },
   st)

/-- `explain_recommendation` as a state transformer: its body never touches
`treatment_db`. -/
def explain_recommendationS (remote : ChatRequest → Except String ChatResponse)
    (pollutant : String) (flow_rate : ℚ) (st : AppState) : String × AppState :=
  (explain_recommendation remote pollutant flow_rate, st)

/-- `extract_pdf_text` as a state transformer: its body never touches
`treatment_db`. -/
def extract_pdf_textS (parsePdf : String → List (Option String))
    (pdf_file : Option String) (st : AppState) : String × AppState :=
  (extract_pdf_text parsePdf pdf_file, st)

/-! ### Properties of the Python string primitives -/

/-- `Char.ofNat` round-trips on codepoints below the surrogate range. -/
theorem char_toNat_ofNat {n : ℕ} (h : n < 55296) : (Char.ofNat n).toNat = n := by
  have hv : n.isValidChar := Or.inl h
  simp [Char.ofNat, hv, Char.ofNatAux, Char.toNat, UInt32.toNat, BitVec.toNat_ofNatLt]

/-- Lower-casing a character twice is the same as doing it once. -/
theorem pyLowerChar_idem (c : Char) : pyLowerChar (pyLowerChar c) = pyLowerChar c := by
  unfold pyLowerChar
  by_cases h : 65 ≤ c.toNat ∧ c.toNat ≤ 90
  · rw [if_pos h]
    have ht : (Char.ofNat (c.toNat + 32)).toNat = c.toNat + 32 :=
      char_toNat_ofNat (by omega)
    rw [if_neg]
    rw [ht]
    omega
  · rw [if_neg h, if_neg h]

/-- Lower-casing does not change whether a character is whitespace. -/
theorem pyIsSpace_pyLowerChar (c : Char) : pyIsSpace (pyLowerChar c) = pyIsSpace c := by
  unfold pyLowerChar
  by_cases h : 65 ≤ c.toNat ∧ c.toNat ≤ 90
  · rw [if_pos h]
    have ht : (Char.ofNat (c.toNat + 32)).toNat = c.toNat + 32 :=
      char_toNat_ofNat (by omega)
    have h1 : pyIsSpace (Char.ofNat (c.toNat + 32)) = false := by
      simp only [pyIsSpace, ht, Bool.or_eq_false_iff, decide_eq_false_iff_not]
      omega
    have h2 : pyIsSpace c = false := by
      simp only [pyIsSpace, Bool.or_eq_false_iff, decide_eq_false_iff_not]
      omega
    rw [h1, h2]
  · rw [if_neg h]

/-- The whitespace test composed with lower-casing is the whitespace test. -/
theorem isSpace_comp_lower : pyIsSpace ∘ pyLowerChar = pyIsSpace :=
  funext pyIsSpace_pyLowerChar

/-- Dropping a prefix satisfying `p` is idempotent. -/
theorem dropWhile_idem (p : Char → Bool) (l : List Char) :
    (l.dropWhile p).dropWhile p = l.dropWhile p := by
  induction l with
  | nil => rfl
  | cons c t ih =>
      by_cases h : p c
      · simp [List.dropWhile_cons, h, ih]
      · simp [List.dropWhile_cons, h]

/-- `stripLeft` drops a leading whitespace character. -/
theorem stripLeft_cons_pos {c : Char} (t : List Char) (hc : pyIsSpace c = true) :
    stripLeft (c :: t) = stripLeft t := by
  unfold stripLeft
  simp [List.dropWhile_cons, hc]

/-- `stripLeft` keeps everything after a leading non-whitespace character. -/
theorem stripLeft_cons_neg {c : Char} (t : List Char) (hc : ¬ pyIsSpace c = true) :
    stripLeft (c :: t) = c :: t := by
  unfold stripLeft
  simp [List.dropWhile_cons, hc]

/-- `stripLeft` is idempotent. -/
theorem stripLeft_idem (l : List Char) : stripLeft (stripLeft l) = stripLeft l :=
  dropWhile_idem pyIsSpace l

/-- `stripRight` is idempotent. -/
theorem stripRight_idem (l : List Char) : stripRight (stripRight l) = stripRight l := by
  unfold stripRight
  rw [List.reverse_reverse, dropWhile_idem]

/-- `stripRight` on a cons whose tail is all whitespace keeps at most the head. -/
theorem stripRight_cons_allspace {c : Char} {t : List Char}
    (ht : t.reverse.dropWhile pyIsSpace = []) :
    stripRight (c :: t) = if pyIsSpace c then [] else [c] := by
  unfold stripRight
  have hrev : (c :: t).reverse = t.reverse ++ [c] := by simp
  rw [hrev, List.dropWhile_append, ht]
  by_cases hc : pyIsSpace c
  · simp [List.dropWhile_cons, hc]
  · simp [List.dropWhile_cons, hc]

/-- `stripRight` on a cons whose tail has trailing non-whitespace keeps the head. -/
theorem stripRight_cons_notall {c : Char} {t : List Char}
    (ht : ¬ t.reverse.dropWhile pyIsSpace = []) :
    stripRight (c :: t) = c :: stripRight t := by
  unfold stripRight
  have hrev : (c :: t).reverse = t.reverse ++ [c] := by simp
  rw [hrev, List.dropWhile_append, if_neg (by simp [List.isEmpty_iff, ht])]
  simp

/-- Stripping the left end commutes with stripping the right end. -/
theorem stripLeft_stripRight (l : List Char) :
    stripLeft (stripRight l) = stripRight (stripLeft l) := by
  induction l with
  | nil => rfl
  | cons c t ih =>
      by_cases ht : t.reverse.dropWhile pyIsSpace = []
      · have htall : ∀ x ∈ t, pyIsSpace x = true := by
          intro x hx
          exact (List.dropWhile_eq_nil_iff.mp ht) x (List.mem_reverse.mpr hx)
        have htl : stripLeft t = [] :=
          List.dropWhile_eq_nil_iff.mpr htall
        by_cases hc : pyIsSpace c
        · rw [stripRight_cons_allspace ht, if_pos hc, stripLeft_cons_pos t hc, htl]
          rfl
        · rw [stripRight_cons_allspace ht, if_neg hc, stripLeft_cons_neg t hc,
              stripLeft_cons_neg [] hc, stripRight_cons_allspace ht, if_neg hc]
      · by_cases hc : pyIsSpace c
        · rw [stripRight_cons_notall ht, stripLeft_cons_pos _ hc, stripLeft_cons_pos t hc]
          exact ih
        · rw [stripRight_cons_notall ht, stripLeft_cons_neg _ hc, stripLeft_cons_neg t hc,
              stripRight_cons_notall ht]

/-- The two-sided strip is idempotent. -/
theorem strip_both_idem (l : List Char) :
    stripRight (stripLeft (stripRight (stripLeft l))) = stripRight (stripLeft l) := by
  rw [stripLeft_stripRight (stripLeft l), stripLeft_idem, stripRight_idem]

/-- Lower-casing each character commutes with `stripLeft`. -/
theorem stripLeft_map_lower (l : List Char) :
    stripLeft (l.map pyLowerChar) = (stripLeft l).map pyLowerChar := by
  unfold stripLeft
  rw [List.dropWhile_map, isSpace_comp_lower]

/-- Lower-casing each character commutes with `stripRight`. -/
theorem stripRight_map_lower (l : List Char) :
    stripRight (l.map pyLowerChar) = (stripRight l).map pyLowerChar := by
  unfold stripRight
  rw [← List.map_reverse, List.dropWhile_map, isSpace_comp_lower, List.map_reverse]

/-- Lower-casing a character list twice is the same as doing it once. -/
theorem map_lower_idem (l : List Char) :
    (l.map pyLowerChar).map pyLowerChar = l.map pyLowerChar := by
  rw [List.map_map]
  congr 1
  funext c
  exact pyLowerChar_idem c

/-- List-level form of the idempotence of `lower`-then-`strip`. -/
theorem normData_idem (l : List Char) :
    stripRight (stripLeft ((stripRight (stripLeft (l.map pyLowerChar))).map pyLowerChar)) =
      stripRight (stripLeft (l.map pyLowerChar)) := by
  rw [← stripRight_map_lower, ← stripLeft_map_lower, map_lower_idem, strip_both_idem]

/-- The normalisation `s.lower().strip()` is idempotent. -/
theorem pyNormalize_idem (s : String) : pyNormalize (pyNormalize s) = pyNormalize s :=
  congrArg String.mk (normData_idem s.data)

/-! ### Behaviour of the operations -/

/-- A key found in `treatment_db` is one of the three literal keys. -/
theorem lookup_key_cases {p : String} {rec : TreatmentRecord}
    (h : treatment_db.lookup p = some rec) :
    p = "lead" ∨ p = "arsenic" ∨ p = "chromium" := by
  by_cases h1 : p = "lead"
  · exact Or.inl h1
  by_cases h2 : p = "arsenic"
  · exact Or.inr (Or.inl h2)
  by_cases h3 : p = "chromium"
  · exact Or.inr (Or.inr h3)
  exfalso
  have hb1 : (p == "lead") = false := beq_eq_false_iff_ne.mpr h1
  have hb2 : (p == "arsenic") = false := beq_eq_false_iff_ne.mpr h2
  have hb3 : (p == "chromium") = false := beq_eq_false_iff_ne.mpr h3
  simp [treatment_db, List.lookup, hb1, hb2, hb3] at h

/-- The three literal keys are fixed points of the normalisation. -/
theorem pyNormalize_key {p : String} {rec : TreatmentRecord}
    (h : treatment_db.lookup p = some rec) : pyNormalize p = p := by
  rcases lookup_key_cases h with h1 | h1 | h1 <;> subst h1 <;> decide

/-- `recommend_treatment` on a pollutant whose normalised form is in the table. -/
theorem recommend_treatment_found {p : String} {rec : TreatmentRecord} (q : ℚ)
    (h : treatment_db.lookup (pyNormalize p) = some rec) :
    recommend_treatment p q =
      { text := summaryText (pyNormalize p) rec q,
        chart := some (efficiencyChart (pyNormalize p) rec),
        table := some (costSludgeTable rec q) } := by
  simp only [recommend_treatment, h]

/-- `recommend_treatment` only looks at the normalised pollutant. -/
theorem recommend_treatment_norm_eq (s : String) (q : ℚ) :
    recommend_treatment s q = recommend_treatment (pyNormalize s) q := by
  simp only [recommend_treatment, pyNormalize_idem]

/-! ### Claims -/

/-- C1: for every pollutant key present in `treatment_db` and every flow rate
(negative values included, nothing is rejected), the "Daily Cost ($)" and
"Sludge (kg/day)" columns of the table returned by `recommend_treatment` are,
per method, the per-unit cost (resp. per-unit sludge) multiplied by the flow
rate and rounded to two decimal places. -/
theorem recommend_treatment_daily_columns (p : String) (q : ℚ) (rec : TreatmentRecord)
    (h : treatment_db.lookup p = some rec) :
    ∃ t, (recommend_treatment p q).table = some t ∧
      t.dailyCost = rec.cost_per_m3.map (fun c => pyRound2 (c * q)) ∧
      t.sludgePerDay = rec.sludge_kg_per_m3.map (fun s => pyRound2 (s * q)) := by
  have hn : treatment_db.lookup (pyNormalize p) = some rec := by
    rw [pyNormalize_key h]
    exact h
  exact ⟨costSludgeTable rec q, by rw [recommend_treatment_found q hn], rfl, rfl⟩

/-- Witness for C1: for lead at flow rate 100 (and at the negative flow rate
-100) the daily columns are the unit columns times the flow rate, rounded;
in particular unit cost 0.8 gives daily cost 80. -/
theorem recommend_treatment_daily_columns_witness :
    treatment_db.lookup "lead" = some
      { methods := ["Chemical Precipitation", "Ion Exchange", "Membrane Filtration"],
        efficiency := [85, 90, 95],
        details := "Lead can be effectively treated using lime precipitation, ion-exchange resins, or RO membranes.",
        cost_per_m3 := [8/10, 15/10, 22/10],
        sludge_kg_per_m3 := [12/100, 5/100, 2/100] } ∧
    (∃ t, (recommend_treatment "lead" 100).table = some t ∧
      t.dailyCost = [80, 150, 220] ∧ t.sludgePerDay = [12, 5, 2]) ∧
    (∃ t, (recommend_treatment "lead" (-100)).table = some t ∧
      t.dailyCost = [-80, -150, -220] ∧ t.sludgePerDay = [-12, -5, -2]) := by
  refine ⟨by with_unfolding_all decide, ?_, ?_⟩
  · obtain ⟨t, h1, h2, h3⟩ :=
      recommend_treatment_daily_columns "lead" 100
        ⟨["Chemical Precipitation", "Ion Exchange", "Membrane Filtration"], [85, 90, 95],
         "Lead can be effectively treated using lime precipitation, ion-exchange resins, or RO membranes.",
         [8/10, 15/10, 22/10], [12/100, 5/100, 2/100]⟩ (by with_unfolding_all decide)
    refine ⟨t, h1, ?_, ?_⟩
    · rw [h2]; with_unfolding_all decide
    · rw [h3]; with_unfolding_all decide
  · obtain ⟨t, h1, h2, h3⟩ :=
      recommend_treatment_daily_columns "lead" (-100)
        ⟨["Chemical Precipitation", "Ion Exchange", "Membrane Filtration"], [85, 90, 95],
         "Lead can be effectively treated using lime precipitation, ion-exchange resins, or RO membranes.",
         [8/10, 15/10, 22/10], [12/100, 5/100, 2/100]⟩ (by with_unfolding_all decide)
    refine ⟨t, h1, ?_, ?_⟩
    · rw [h2]; with_unfolding_all decide
    · rw [h3]; with_unfolding_all decide

/-- C2: for every pollutant whose normalised (lower-cased, trimmed) form is
not a key of the table, and every flow rate, `recommend_treatment` returns the
no-data message as its text and neither a chart nor a table. -/
theorem recommend_treatment_unknown (s : String) (q : ℚ)
    (h : treatment_db.lookup (pyNormalize s) = none) :
    recommend_treatment s q =
      { text := noDataMessage (pyNormalize s), chart := none, table := none } := by
  simp only [recommend_treatment, h]

/-- Witness for C2: the pollutant "mercury" produces the no-data message and
no chart or table. -/
theorem recommend_treatment_unknown_witness :
    treatment_db.lookup (pyNormalize "mercury") = none ∧
    recommend_treatment "mercury" 50 =
      { text := "❌ No data for \x27mercury\x27. Try lead, arsenic, chromium.",
        chart := none, table := none } := by
  refine ⟨by decide, ?_⟩
  rw [recommend_treatment_unknown "mercury" 50 (by decide)]
  decide

/-- C3: the lookup is invariant under case and surrounding whitespace: any
input behaves exactly like its lower-cased trimmed form; in particular
" LEAD " and "lead" yield identical outputs. -/
theorem recommend_treatment_normalize_invariant :
    (∀ (s : String) (q : ℚ),
        recommend_treatment s q = recommend_treatment (pyNormalize s) q) ∧
    (∀ q : ℚ, recommend_treatment " LEAD " q = recommend_treatment "lead" q) := by
  refine ⟨recommend_treatment_norm_eq, fun q => ?_⟩
  rw [recommend_treatment_norm_eq " LEAD " q]
  have h : pyNormalize " LEAD " = "lead" := by decide
  rw [h]

/-- C5: whenever the remote chat-completion call raises an exception, the
exception text comes back prefixed with the fixed warning marker; the
function is total, so no exception propagates. -/
theorem explain_recommendation_catches
    (remote : ChatRequest → Except String ChatResponse)
    (pollutant : String) (flow_rate : ℚ) (e : String)
    (h : remote (chatRequest pollutant flow_rate) = Except.error e) :
    explain_recommendation remote pollutant flow_rate =
      "⚠️ AI explanation unavailable: " ++ e := by
  simp only [explain_recommendation, h]

/-- Witness for C5: a failing endpoint surfaces its message behind the marker. -/
theorem explain_recommendation_catches_witness :
    (fun _ : ChatRequest => (Except.error "connection refused" : Except String ChatResponse))
        (chatRequest "lead" 100) = Except.error "connection refused" ∧
    explain_recommendation (fun _ => Except.error "connection refused") "lead" 100 =
      "⚠️ AI explanation unavailable: connection refused" := by
  refine ⟨rfl, ?_⟩
  rw [explain_recommendation_catches (fun _ => Except.error "connection refused")
        "lead" 100 "connection refused" rfl]
  decide

/-- C7: with no file uploaded, `extract_pdf_text` returns the fixed
placeholder for every possible parser, i.e. without invoking the parser. -/
theorem extract_pdf_text_no_file (parsePdf : String → List (Option String)) :
    extract_pdf_text parsePdf none = "No file uploaded." := rfl

/-- C9: no operation changes the module state holding `treatment_db`: after
any call to any of the three handlers the table equals what it was before. -/
theorem treatment_db_immutable (st : AppState) (pollutant : String) (flow_rate : ℚ)
    (remote : ChatRequest → Except String ChatResponse)
    (parsePdf : String → List (Option String)) (pdf_file : Option String) :
    (recommend_treatmentS pollutant flow_rate st).2 = st ∧
    (explain_recommendationS remote pollutant flow_rate st).2 = st ∧
    (extract_pdf_textS parsePdf pdf_file st).2 = st :=
  ⟨rfl, rfl, rfl⟩

/-- Unrolling the page-accumulation loop: the accumulator ends up followed by
the page texts in order. -/
theorem foldl_append_data (pages : List (Option String)) (acc : String) :
    (pages.foldl (fun text page => text ++ page.getD "") acc).data =
      acc.data ++ (pages.map (fun page => (page.getD "").data)).flatten := by
  induction pages generalizing acc with
  | nil => simp
  | cons page t ih =>
      simp only [List.foldl_cons, List.map_cons, List.flatten_cons]
      rw [ih (acc ++ page.getD ""), String.data_append, List.append_assoc]

/-- The assembled text is the concatenation of the page texts in page order. -/
theorem pdfConcat_data (pages : List (Option String)) :
    (pdfConcat pages).data = (pages.map (fun page => (page.getD "").data)).flatten := by
  unfold pdfConcat
  rw [foldl_append_data]
  rfl

/-- C4: in `treatment_db` the four parallel sequences of every record have
equal length (one entry per method), and lookup of each of the three keys
returns exactly the literal table entry. -/
theorem treatment_db_parallel_literal :
    treatment_db.map (fun kv =>
        (kv.2.methods.length, kv.2.efficiency.length,
         kv.2.cost_per_m3.length, kv.2.sludge_kg_per_m3.length)) =
      [(3, 3, 3, 3), (3, 3, 3, 3), (3, 3, 3, 3)] ∧
    treatment_db.lookup "lead" = some
      { methods := ["Chemical Precipitation", "Ion Exchange", "Membrane Filtration"],
        efficiency := [85, 90, 95],
        details := "Lead can be effectively treated using lime precipitation, ion-exchange resins, or RO membranes.",
        cost_per_m3 := [8/10, 15/10, 22/10],
        sludge_kg_per_m3 := [12/100, 5/100, 2/100] } ∧
    treatment_db.lookup "arsenic" = some
      { methods := ["Coagulation–Filtration", "Adsorption", "Reverse Osmosis"],
        efficiency := [80, 88, 96],
        details := "Arsenic removal requires multi-barrier approaches including iron-based adsorbents and RO systems.",
        cost_per_m3 := [9/10, 12/10, 25/10],
        sludge_kg_per_m3 := [15/100, 7/100, 3/100] } ∧
    treatment_db.lookup "chromium" = some
      { methods := ["Reduction + Precipitation", "Activated Carbon Adsorption", "Electrochemical Treatment"],
        efficiency := [82, 87, 93],
        details := "Chromium (VI) is reduced to Cr (III) before precipitation, or handled with advanced adsorption/EC.",
        cost_per_m3 := [10/10, 14/10, 20/10],
        sludge_kg_per_m3 := [18/100, 6/100, 4/100] } := by
  refine ⟨?_, ?_, ?_, ?_⟩
  · with_unfolding_all rfl
  · with_unfolding_all rfl
  · with_unfolding_all rfl
  · with_unfolding_all rfl

/-- C6: for every uploaded document the returned string is a prefix of at
most 2000 characters of the extracted text, followed by the ellipsis
marker, however long the document is. -/
theorem extract_pdf_text_truncates (parsePdf : String → List (Option String))
    (path : String) (h : path ≠ "") :
    extract_pdf_text parsePdf (some path) =
      pyTake 2000 (pdfConcat (parsePdf path)) ++ "..." ∧
    (pyTake 2000 (pdfConcat (parsePdf path))).length ≤ 2000 := by
  constructor
  · simp only [extract_pdf_text]
    rw [if_neg h]
  · simp only [pyTake, String.length_mk, List.length_take]
    exact Nat.min_le_left _ _

/-- Witness for C6: a three-page document is assembled, truncated and
suffixed with the marker. -/
theorem extract_pdf_text_truncates_witness :
    ("who.pdf" : String) ≠ "" ∧
    extract_pdf_text (fun _ => [some "Guideline value 0.01 mg/L", none, some " for arsenic"])
        (some "who.pdf") = "Guideline value 0.01 mg/L for arsenic..." := by
  refine ⟨by decide, ?_⟩
  have h := extract_pdf_text_truncates
    (fun _ => [some "Guideline value 0.01 mg/L", none, some " for arsenic"]) "who.pdf" (by decide)
  rw [h.1]
  decide

/-- C8: for every non-empty upload, the text assembled before truncation is
the concatenation, in page order, of the per-page extracted texts, a page
with no extractable text (`None`) contributing the empty string. -/
theorem extract_pdf_text_page_order (parsePdf : String → List (Option String))
    (path : String) (h : path ≠ "") :
    extract_pdf_text parsePdf (some path) =
      pyTake 2000 (pdfConcat (parsePdf path)) ++ "..." ∧
    (pdfConcat (parsePdf path)).data =
      ((parsePdf path).map (fun page => (page.getD "").data)).flatten := by
  refine ⟨?_, pdfConcat_data _⟩
  simp only [extract_pdf_text]
  rw [if_neg h]

/-- Witness for C8: pages "ab", an unextractable page, and "cd" assemble to
"abcd" in page order. -/
theorem extract_pdf_text_page_order_witness :
    ("epa.pdf" : String) ≠ "" ∧
    extract_pdf_text (fun _ => [some "ab", none, some "cd"]) (some "epa.pdf") = "abcd..." ∧
    (pdfConcat [some "ab", none, some "cd"]).data =
      ["ab".data, "".data, "cd".data].flatten := by
  have h := extract_pdf_text_page_order (fun _ => [some "ab", none, some "cd"]) "epa.pdf"
    (by decide)
  exact ⟨by decide, by rw [h.1]; decide, by decide⟩

/-- C10: the ellipsis marker is appended unconditionally: whenever the
assembled text of a non-empty upload is shorter than 2000 characters —
including a document with no extractable text at all — the result is that
entire text with "..." appended, even though nothing was truncated. -/
theorem extract_pdf_text_ellipsis_unconditional
    (parsePdf : String → List (Option String)) (path : String)
    (h1 : path ≠ "") (h2 : (pdfConcat (parsePdf path)).length < 2000) :
    extract_pdf_text parsePdf (some path) = pdfConcat (parsePdf path) ++ "..." := by
  simp only [extract_pdf_text]
  rw [if_neg h1]
  have hl : (pdfConcat (parsePdf path)).data.length ≤ 2000 := Nat.le_of_lt h2
  simp only [pyTake, List.take_of_length_le hl]

/-- Witness for C10: a document whose only page has no extractable text
yields just the ellipsis marker. -/
theorem extract_pdf_text_ellipsis_unconditional_witness :
    ("guide.pdf" : String) ≠ "" ∧
    (pdfConcat ((fun _ : String => [(none : Option String)]) "guide.pdf")).length < 2000 ∧
    extract_pdf_text (fun _ => [none]) (some "guide.pdf") = "..." := by
  refine ⟨by decide, by decide, ?_⟩
  rw [extract_pdf_text_ellipsis_unconditional (fun _ => [none]) "guide.pdf"
        (by decide) (by decide)]
  decide

end WasteWater
